import Mathlib

/-!
Verification of the CASPaxos implementation in casPaxos.py.

The source is a single Python 2 file with two protocol classes:

* `Acceptor` with fields `promise` (an int ballot, class default 0) and
  `accepted` (a `(value, ballot_number)` tuple, class default `(0, 0)`), and
  methods `prepare(ballot_number)` and `accept(ballot_number, new_state)`.
* `Proposer` with fields `acceptors` (a list of acceptors), `F`
  (`(len(acceptors) - 1) / 2`, Python 2 floor division) and `state`
  (initially 0), and methods `receive(f)`, `generate_ballot_number`,
  `send_prepare(ballot_number)`, `get_highest_confirmation(confirmations)`
  and `send_accept(f, ballot_number)`.

Ballot numbers in the source come from `random.randint(notLessThan + 1, 100)`,
so they are natural numbers; we model them as `Nat`.  Application values are
Python ints produced by arbitrary client change functions, modelled as `Int`.
Each method is embedded as a pure function from the pre-state to the result
together with the post-state.
-/

/-- The durable record of one `Acceptor` instance: `promise` is the promised
ballot (default 0), `accepted` is the `(value, ballot_number)` tuple of the
most recently accepted value (default `(0, 0)`, the bottom sentinel). -/
structure Acceptor where
  promise : Nat
  accepted : Int × Nat
deriving Repr, DecidableEq

/-- The fresh acceptor state given by the class attributes
`promise = 0`, `accepted = (0, 0)` of casPaxos.py. -/
def Acceptor.fresh : Acceptor :=
  { promise := 0, accepted := (0, 0) }

/-- Result of `Acceptor.prepare`: either the `("CONFLICT", "CONFLICT")` tuple,
or the acceptor's `accepted` tuple (its `(value, ballot_number)` pair). -/
inductive PrepareResult where
  | conflict
  | promised (accepted : Int × Nat)
deriving Repr, DecidableEq

/-- Result of `Acceptor.accept`: `("CONFLICT", "CONFLICT")` or
`("CONFIRM", "CONFIRM")`. -/
inductive AcceptResult where
  | conflict
  | confirm
deriving Repr, DecidableEq

/-- `Acceptor.prepare(ballot_number)` of casPaxos.py lines 187-203:
if `self.promise > ballot_number`, return the conflict tuple (state
unchanged); otherwise set `self.promise = ballot_number` and return
`self.accepted`.  The embedding returns the reply paired with the
post-state of the acceptor. -/
def Acceptor.prepare (a : Acceptor) (ballot_number : Nat) :
    PrepareResult × Acceptor :=
  if a.promise > ballot_number then
    (PrepareResult.conflict, a)
  else
    (PrepareResult.promised a.accepted, { a with promise := ballot_number })

/-- `Acceptor.accept(ballot_number, new_state)` of casPaxos.py lines 205-222:
if `self.promise > ballot_number` return conflict; elif
`self.accepted[1] > ballot_number` return conflict; otherwise set
`self.promise = 0`, `self.accepted = (new_state, ballot_number)` and
return confirm. -/
def Acceptor.accept (a : Acceptor) (ballot_number : Nat) (new_state : Int) :
    AcceptResult × Acceptor :=
  if a.promise > ballot_number then
    (AcceptResult.conflict, a)
  else if a.accepted.2 > ballot_number then
    (AcceptResult.conflict, a)
  else
    (AcceptResult.confirm, { promise := 0, accepted := (new_state, ballot_number) })

/-- One incoming call to an acceptor, for reasoning about call sequences. -/
inductive Call where
  | prepareCall (ballot_number : Nat)
  | acceptCall (ballot_number : Nat) (new_state : Int)
deriving Repr, DecidableEq

/-- The acceptor state after serving one call (the reply is discarded). -/
def applyCall (a : Acceptor) (c : Call) : Acceptor :=
  match c with
  | Call.prepareCall b => (a.prepare b).2
  | Call.acceptCall b v => (a.accept b v).2

/-- The acceptor state after serving a sequence of calls in order. -/
def applyCalls (a : Acceptor) (cs : List Call) : Acceptor :=
  cs.foldl applyCall a

/-- A single call never decreases the ballot component of `accepted`. -/
theorem applyCall_accepted_ballot_le (a : Acceptor) (c : Call) :
    a.accepted.2 ≤ (applyCall a c).accepted.2 := by
  cases c with
  | prepareCall b =>
      simp only [applyCall, Acceptor.prepare]
      split <;> simp
  | acceptCall b v =>
      simp only [applyCall, Acceptor.accept]
      split
      · simp
      · split
        · simp
        · simpa using by omega

/-- C1 counterexample: with `promise = 5`, a `Prepare(5)` call has
`ballot <= promise` yet does not conflict: the source only conflicts on
`self.promise > ballot_number` (strict), so the equal ballot succeeds and
the promise is (re)set to 5. -/
theorem prepare_equal_ballot_succeeds :
    (5 : Nat) ≤ (Acceptor.mk 5 (0, 0)).promise ∧
      ((Acceptor.mk 5 (0, 0)).prepare 5).1 = PrepareResult.promised (0, 0) ∧
      ((Acceptor.mk 5 (0, 0)).prepare 5).2 = Acceptor.mk 5 (0, 0) := by
  decide

/-- C1 (amended): `Prepare(ballot)` fails with the conflict reply if and only
if `ballot < promise` (strictly); otherwise it sets `promise = ballot` and
returns the latest accepted `(value, ballot)` pair, which is the bottom
sentinel `(0, 0)` if nothing has been accepted yet. -/
theorem prepare_characterization (a : Acceptor) (b : Nat) :
    ((a.prepare b).1 = PrepareResult.conflict ↔ b < a.promise) ∧
      (¬ b < a.promise →
        (a.prepare b).1 = PrepareResult.promised a.accepted ∧
          (a.prepare b).2.promise = b ∧ (a.prepare b).2.accepted = a.accepted) := by
  constructor
  · simp only [Acceptor.prepare]
    split <;> rename_i h
    · simpa using h
    · simp only [gt_iff_lt, not_lt] at h
      simp [Nat.not_lt.mpr h]
  · intro h
    simp [Acceptor.prepare, h]

/-- C1 witness: on a fresh acceptor, `Prepare(5)` succeeds, returning the
bottom sentinel and recording the promise 5. -/
theorem prepare_characterization_witness :
    (Acceptor.fresh.prepare 5).1 = PrepareResult.promised Acceptor.fresh.accepted ∧
      (Acceptor.fresh.prepare 5).2.promise = 5 ∧
      (Acceptor.fresh.prepare 5).2.accepted = Acceptor.fresh.accepted :=
  (prepare_characterization Acceptor.fresh 5).2 (by decide)

/-- C2: `Accept(ballot, value)` fails with the conflict reply if and only if
`ballot < promise` or `ballot` is below the ballot of the existing accepted
pair; otherwise it records `accepted = (value, ballot)`, resets `promise` to
the reserved zero ballot, and replies confirm. -/
theorem accept_characterization (a : Acceptor) (b : Nat) (v : Int) :
    ((a.accept b v).1 = AcceptResult.conflict ↔ (b < a.promise ∨ b < a.accepted.2)) ∧
      (¬ (b < a.promise ∨ b < a.accepted.2) →
        (a.accept b v).1 = AcceptResult.confirm ∧
          (a.accept b v).2.promise = 0 ∧
          (a.accept b v).2.accepted = (v, b)) := by
  constructor
  · simp only [Acceptor.accept]
    split <;> rename_i h1
    · simp only [gt_iff_lt] at h1
      simp [h1]
    · split <;> rename_i h2
      · simp only [gt_iff_lt] at h2
        simp [h2]
      · simp only [gt_iff_lt, not_lt] at h1 h2
        simp [Nat.not_lt.mpr h1, Nat.not_lt.mpr h2]
  · intro h
    push_neg at h
    simp [Acceptor.accept, Nat.not_lt.mpr h.1, Nat.not_lt.mpr h.2]

/-- C2 witness: on a fresh acceptor, `Accept(5, 3)` cannot conflict and
records `accepted = (3, 5)` with `promise` reset to 0. -/
theorem accept_characterization_witness :
    (Acceptor.fresh.accept 5 3).1 = AcceptResult.confirm ∧
      (Acceptor.fresh.accept 5 3).2.promise = 0 ∧
      (Acceptor.fresh.accept 5 3).2.accepted = (3, 5) :=
  (accept_characterization Acceptor.fresh 5 3).2 (by decide)

/-- C7: under any sequence of calls the ballot of the accepted pair never
decreases; and after an `Accept(b2, v2)` succeeded, a later `Accept(b1, v1)`
with `b1 < b2` replies conflict and leaves the record (hence the stored value
`v2`) unchanged. -/
theorem accepted_ballot_monotone (a : Acceptor) (cs : List Call)
    (b1 b2 : Nat) (v1 v2 : Int)
    (hsucc : (a.accept b2 v2).1 = AcceptResult.confirm) (hlt : b1 < b2) :
    a.accepted.2 ≤ (applyCalls a cs).accepted.2 ∧
      (((a.accept b2 v2).2).accept b1 v1).1 = AcceptResult.conflict ∧
      (((a.accept b2 v2).2).accept b1 v1).2 = (a.accept b2 v2).2 ∧
      (((a.accept b2 v2).2).accept b1 v1).2.accepted.1 = v2 := by
  refine ⟨?_, ?_⟩
  · clear hsucc hlt
    induction cs generalizing a with
    | nil => simp [applyCalls]
    | cons c cs ih =>
        calc a.accepted.2 ≤ (applyCall a c).accepted.2 :=
              applyCall_accepted_ballot_le a c
          _ ≤ (applyCalls (applyCall a c) cs).accepted.2 := ih (applyCall a c)
          _ = (applyCalls a (c :: cs)).accepted.2 := by simp [applyCalls]
  · have h1 : ¬ a.promise > b2 := by
      by_contra h
      simp [Acceptor.accept, h] at hsucc
    have h2 : ¬ a.accepted.2 > b2 := by
      by_contra h
      simp [Acceptor.accept, h1, h] at hsucc
    have hstate : (a.accept b2 v2).2 = { promise := 0, accepted := (v2, b2) } := by
      simp [Acceptor.accept, h1, h2]
    rw [hstate]
    simp only [Acceptor.accept]
    have h0 : ¬ ((0 : Nat) > b1) := by omega
    rw [if_neg h0, if_pos (by simpa using hlt)]
    exact ⟨rfl, rfl, rfl⟩

/-- C7 witness: from a fresh acceptor, `Accept(7, 2)` succeeds; a later
`Accept(5, 1)` conflicts and the stored value remains 2; and the sequence
`[Prepare(3)]` does not decrease the accepted ballot. -/
theorem accepted_ballot_monotone_witness :
    Acceptor.fresh.accepted.2 ≤
        (applyCalls Acceptor.fresh [Call.prepareCall 3]).accepted.2 ∧
      (((Acceptor.fresh.accept 7 2).2).accept 5 1).1 = AcceptResult.conflict ∧
      (((Acceptor.fresh.accept 7 2).2).accept 5 1).2 = (Acceptor.fresh.accept 7 2).2 ∧
      (((Acceptor.fresh.accept 7 2).2).accept 5 1).2.accepted.1 = 2 :=
  accepted_ballot_monotone Acceptor.fresh [Call.prepareCall 3] 5 7 1 2
    (by decide) (by decide)

/-- C8: applying `Accept(b, v)` twice in succession gives the same reply and
the same final record as applying it once. -/
theorem accept_idempotent (a : Acceptor) (b : Nat) (v : Int) :
    ((a.accept b v).2).accept b v = a.accept b v := by
  simp only [Acceptor.accept]
  split <;> rename_i h1
  · simp only [Acceptor.accept, if_pos h1]
  · split <;> rename_i h2
    · simp only [Acceptor.accept, if_neg h1, if_pos h2]
    · simp only
      rw [if_neg (by omega : ¬ ((0 : Nat) > b)), if_neg (by omega : ¬ (b > b))]

/-- C9: whenever `Prepare` or `Accept` replies conflict, the acceptor's
record (both `promise` and `accepted`) is unchanged. -/
theorem conflict_leaves_record_unchanged (a : Acceptor) (b : Nat) (v : Int) :
    ((a.prepare b).1 = PrepareResult.conflict → (a.prepare b).2 = a) ∧
      ((a.accept b v).1 = AcceptResult.conflict → (a.accept b v).2 = a) := by
  constructor
  · intro h
    simp only [Acceptor.prepare] at h ⊢
    split at h <;> simp_all
  · intro h
    simp only [Acceptor.accept] at h ⊢
    split at h <;> simp_all
    split at h <;> simp_all

/-- C9 witness: with `promise = 5`, both `Prepare(3)` and `Accept(3, 7)`
conflict, and the record is unchanged in both cases. -/
theorem conflict_leaves_record_unchanged_witness :
    ((Acceptor.mk 5 (0, 0)).prepare 3).2 = Acceptor.mk 5 (0, 0) ∧
      ((Acceptor.mk 5 (0, 0)).accept 3 7).2 = Acceptor.mk 5 (0, 0) :=
  ⟨(conflict_leaves_record_unchanged (Acceptor.mk 5 (0, 0)) 3 7).1 (by decide),
   (conflict_leaves_record_unchanged (Acceptor.mk 5 (0, 0)) 3 7).2 (by decide)⟩

/-- The `Proposer` state of casPaxos.py: the list of acceptor objects and the
current `state` value (initialized to 0).  The field `self.F`, set once in
`__init__` to `(len(self.acceptors) - 1) / 2` and never reassigned (and
`self.acceptors` never changes length), is modelled as the derived function
`Proposer.F` below. -/
structure Proposer where
  acceptors : List Acceptor
  state : Int
deriving Repr, DecidableEq

/-- `self.F = (len(self.acceptors) - 1) / 2` from `Proposer.__init__`
(casPaxos.py line 62).  Python 2 `/` on ints is floor division, so the
result is an integer and is `-1` for an empty acceptor list. -/
def Proposer.F (p : Proposer) : Int :=
  ((p.acceptors.length : Int) - 1).fdiv 2

/-- The `acceptors` argument passed to `Proposer.__init__`: either an actual
Python list of acceptors, or any value that is not a list (the constructor
only inspects listness via `isinstance(acceptors, list)`). -/
inductive AcceptorsArg where
  | list (xs : List Acceptor)
  | nonList
deriving Repr

/-- The message of the `ValueError` raised by `Proposer.__init__`. -/
def valueErrorMsg : String :=
  "acceptors ought to be a list of child classes of Acceptor object"

/-- `Proposer.__init__(acceptors)` of casPaxos.py lines 54-66: raise
`ValueError` when the argument is not a list; otherwise store the list and
set `state = 0` (the bottom value).  Raising is modelled as `Except.error`,
which carries no proposer state. -/
def Proposer.init (acceptors : AcceptorsArg) : Except String Proposer :=
  match acceptors with
  | AcceptorsArg.nonList => Except.error valueErrorMsg
  | AcceptorsArg.list xs => Except.ok { acceptors := xs, state := 0 }

/-- `random.randint(lo, hi)` returns some integer `r` with `lo ≤ r ≤ hi`;
this predicate delimits the values the PRNG can produce. -/
def randintRange (lo hi r : Nat) : Prop :=
  lo ≤ r ∧ r ≤ hi

instance (lo hi r : Nat) : Decidable (randintRange lo hi r) :=
  inferInstanceAs (Decidable (lo ≤ r ∧ r ≤ hi))

/-- `Proposer.generate_ballot_number(notLessThan=0)` of casPaxos.py lines
79-89 returns `random.randint(notLessThan + 1, 100)`.  The PRNG draw is
externalized as the argument `draw`, constrained by
`randintRange (notLessThan + 1) 100 draw` in the theorems; the function
itself just passes the draw through, keeping no high-water mark and reading
no other proposer state. -/
def generate_ballot_number (notLessThan draw : Nat) : Nat :=
  draw

/-- Python's `sorted` on a list of ints (ascending), modelled by insertion
sort.  Used by `get_highest_confirmation`. -/
def insertSorted (x : Nat) : List Nat → List Nat
  | [] => [x]
  | y :: ys => if x ≤ y then x :: y :: ys else y :: insertSorted x ys

/-- `ballots = sorted(ballots)` of casPaxos.py line 136. -/
def pySorted (xs : List Nat) : List Nat :=
  xs.foldr insertSorted []

/-- `Proposer.get_highest_confirmation(confirmations)` of casPaxos.py lines
132-141: collect the ballots (second components), sort ascending, take the
last element (`ballots[len(ballots) - 1]`, an IndexError on an empty list,
modelled as `none`), then return the first confirmation carrying that
ballot (`none` if the loop falls through, which cannot happen). -/
def get_highest_confirmation (confirmations : List (Int × Nat)) :
    Option (Int × Nat) :=
  match (pySorted (confirmations.map Prod.snd)).getLast? with
  | none => none
  | some highestBallot => confirmations.find? (fun i => i.2 == highestBallot)

/-- The per-acceptor replies (with post-states) of the prepare fan-out loop
at casPaxos.py lines 93-105: each acceptor in order serves
`prepare(ballot_number)`. -/
def prepareResults (acceptors : List Acceptor) (ballot_number : Nat) :
    List (PrepareResult × Acceptor) :=
  acceptors.map (fun a => a.prepare ballot_number)

/-- The `confirmations` list built by `send_prepare`: replies whose first
component is not `"CONFLICT"`, i.e. the accepted `(value, ballot)` tuples
of the non-conflicting acceptors. -/
def prepareConfirmations (acceptors : List Acceptor) (ballot_number : Nat) :
    List (Int × Nat) :=
  (prepareResults acceptors ballot_number).filterMap (fun r =>
    match r.1 with
    | PrepareResult.conflict => none
    | PrepareResult.promised acc => some acc)

/-- The state derivation after the wait loop of `send_prepare` (casPaxos.py
lines 118-130): if the sum of the confirmation values is 0 the state is set
to 0 (the code's PHI sentinel), otherwise to the value of
`get_highest_confirmation`.  The `none` fallback of the match is
unreachable when the sum is nonzero, since the confirmation list is then
nonempty. -/
def prepareBaseline (confirmations : List (Int × Nat)) : Int :=
  if (confirmations.map Prod.fst).sum = 0 then 0
  else
    match get_highest_confirmation confirmations with
    | some highest => highest.1
    | none => 0

/-- The proposer as mutated by a `send_prepare(ballot_number)` call that got
past its wait loop: acceptors updated by the fan-out, state set to the
derived baseline. -/
def afterPrepare (p : Proposer) (ballot_number : Nat) : Proposer :=
  { acceptors := (prepareResults p.acceptors ballot_number).map Prod.snd,
    state := prepareBaseline (prepareConfirmations p.acceptors ballot_number) }

/-- `Proposer.send_prepare(ballot_number)` of casPaxos.py lines 91-130.  The
wait loop at lines 108-116 (`while True: if len(confirmations) >= self.F + 1:
break else: sleep(5)`) has a body that never changes `confirmations` — the
fan-out completed synchronously before the loop — so the call returns if and
only if the condition holds on entry, and otherwise sleeps forever.  The
embedding returns `some` of the mutated proposer when the loop exits and
`none` when the source call never returns. -/
def send_prepare (p : Proposer) (ballot_number : Nat) : Option Proposer :=
  if ((prepareConfirmations p.acceptors ballot_number).length : Int) ≥ p.F + 1 then
    some (afterPrepare p ballot_number)
  else
    none

/-- The per-acceptor replies (with post-states) of the accept fan-out loop
at casPaxos.py lines 148-155. -/
def acceptResults (acceptors : List Acceptor) (ballot_number : Nat)
    (new_state : Int) : List (AcceptResult × Acceptor) :=
  acceptors.map (fun a => a.accept ballot_number new_state)

/-- The `acceptations` list of `send_accept`: replies whose first component
is not `"CONFLICT"`. -/
def acceptConfirmations (acceptors : List Acceptor) (ballot_number : Nat)
    (new_state : Int) : List (AcceptResult × Acceptor) :=
  (acceptResults acceptors ballot_number new_state).filter (fun r =>
    r.1 != AcceptResult.conflict)

/-- `Proposer.send_accept(f, ballot_number)` of casPaxos.py lines 143-166:
set `state = f(state)`, fan out `accept(ballot_number, state)`, then the
same never-changing wait loop as in `send_prepare` (lines 158-163); on exit
return the new state.  As for `send_prepare`, `none` models the call never
returning. -/
def send_accept (p : Proposer) (f : Int → Int) (ballot_number : Nat) :
    Option (Int × Proposer) :=
  let newState := f p.state
  if ((acceptConfirmations p.acceptors ballot_number newState).length : Int)
      ≥ p.F + 1 then
    some (newState,
      { acceptors := (acceptResults p.acceptors ballot_number newState).map Prod.snd,
        state := newState })
  else
    none

/-- `Proposer.receive(f)` of casPaxos.py lines 68-77: generate a ballot
(externalized as the `ballot_number` argument, see
`generate_ballot_number`), run `send_prepare`, then return the result of
`send_accept`.  `none` propagates a phase whose wait loop never exits. -/
def receive (p : Proposer) (f : Int → Int) (ballot_number : Nat) :
    Option (Int × Proposer) :=
  match send_prepare p ballot_number with
  | none => none
  | some p1 => send_accept p1 f ballot_number

/-- A prepare phase returns (the wait loop exits) precisely when the number
of non-conflicting confirmations reaches `F + 1`. -/
theorem send_prepare_isSome (p : Proposer) (b : Nat) :
    (send_prepare p b).isSome ↔
      ((prepareConfirmations p.acceptors b).length : Int) ≥ p.F + 1 := by
  unfold send_prepare
  split <;> simp_all

/-- An accept phase returns (the wait loop exits) precisely when the number
of non-conflicting acceptations reaches `F + 1`. -/
theorem send_accept_isSome (p : Proposer) (f : Int → Int) (b : Nat) :
    (send_accept p f b).isSome ↔
      ((acceptConfirmations p.acceptors b (f p.state)).length : Int) ≥ p.F + 1 := by
  unfold send_accept
  dsimp only
  split <;> simp_all

/-- Acceptor states for the C3 failing input: three acceptors with nothing
promised, holding accepted pairs `(5, 3)`, `(-5, 7)` and the bottom
sentinel `(0, 0)`; the collected confirmation values sum to zero without
all being the bottom sentinel. -/
def mixedAcceptors : List Acceptor :=
  [Acceptor.mk 0 (5, 3), Acceptor.mk 0 (-5, 7), Acceptor.mk 0 (0, 0)]

/-- C3: on the failing input, `send_prepare(10)` collects the non-bottom
confirmations `(5, 3)` and `(-5, 7)` (plus one bottom), whose values sum to
zero, so the `sum(...) == 0` test at casPaxos.py line 125 sets the baseline
state to 0 (PHI) — even though not every reply is the bottom sentinel and
the highest-ballot confirmation (which the code's own comment at lines
122-124 says should be picked) carries the value `-5`. -/
theorem baseline_sum_zero_masks_highest :
    prepareConfirmations mixedAcceptors 10 = [(5, 3), (-5, 7), (0, 0)] ∧
      get_highest_confirmation (prepareConfirmations mixedAcceptors 10) =
        some (-5, 7) ∧
      (send_prepare { acceptors := mixedAcceptors, state := 0 } 10).map
          Proposer.state = some 0 := by
  decide

/-- Acceptor states for the C4 counterexample: four acceptors, two fresh and
two already promised to ballot 9. -/
def fourAcceptors : List Acceptor :=
  [Acceptor.fresh, Acceptor.fresh, Acceptor.mk 9 (0, 0), Acceptor.mk 9 (0, 0)]

/-- C4 counterexample: with N = 4 acceptors the code's threshold is
`F + 1 = (4 - 1) / 2 + 1 = 2`, not `floor(N/2) + 1 = 3`: a prepare phase
with only 2 non-conflicting replies (the other two conflict) succeeds. -/
theorem prepare_succeeds_below_majority :
    (prepareConfirmations fourAcceptors 5).length = 2 ∧
      ((prepareConfirmations fourAcceptors 5).length : Int) <
        (fourAcceptors.length : Int) / 2 + 1 ∧
      (send_prepare { acceptors := fourAcceptors, state := 0 } 5).isSome = true := by
  decide

/-- C4 (amended): in both phases the proposer proceeds if and only if at
least `F + 1` non-conflicting replies were collected, where
`F = (N - 1) / 2` by Python floor division (`Proposer.F`); this equals
`floor(N/2) + 1` only for odd N. -/
theorem quorum_characterization (p : Proposer) (f : Int → Int) (b : Nat) :
    ((send_prepare p b).isSome ↔
      ((prepareConfirmations p.acceptors b).length : Int) ≥ p.F + 1) ∧
      ((send_accept p f b).isSome ↔
        ((acceptConfirmations p.acceptors b (f p.state)).length : Int) ≥ p.F + 1) :=
  ⟨send_prepare_isSome p b, send_accept_isSome p f b⟩

/-- C5 counterexample: two successive `receive` calls invoke
`generate_ballot_number()` with the default `notLessThan = 0`; the draws 5
and then 3 are both legal `randint(1, 100)` results, and the second issued
ballot is not greater than the first — the proposer keeps no high-water
mark, so successive ballots need not increase. -/
theorem successive_ballots_not_increasing :
    randintRange (0 + 1) 100 5 ∧ randintRange (0 + 1) 100 3 ∧
      ¬ generate_ballot_number 0 5 < generate_ballot_number 0 3 := by
  decide

/-- C5 (amended): a generated ballot is exactly the PRNG draw from
`randint(notLessThan + 1, 100)`, hence strictly greater than `notLessThan`,
at most 100, and never the reserved zero ballot; no other proposer state
influences it. -/
theorem generate_ballot_number_range (notLessThan draw : Nat)
    (h : randintRange (notLessThan + 1) 100 draw) :
    notLessThan < generate_ballot_number notLessThan draw ∧
      generate_ballot_number notLessThan draw ≤ 100 ∧
      generate_ballot_number notLessThan draw ≠ 0 := by
  obtain ⟨h1, h2⟩ := h
  refine ⟨?_, ?_, ?_⟩ <;> simp only [generate_ballot_number] <;> omega

/-- C5 witness: the draw 5 with `notLessThan = 0` yields the ballot 5,
which is positive, at most 100 and nonzero. -/
theorem generate_ballot_number_range_witness :
    0 < generate_ballot_number 0 5 ∧ generate_ballot_number 0 5 ≤ 100 ∧
      generate_ballot_number 0 5 ≠ 0 :=
  generate_ballot_number_range 0 5 (by decide)

/-- Acceptor states for the C6 counterexample: three acceptors all already
promised to ballot 10, so a round at ballot 5 collects zero confirmations. -/
def promisedTenAcceptors : List Acceptor :=
  [Acceptor.mk 10 (0, 0), Acceptor.mk 10 (0, 0), Acceptor.mk 10 (0, 0)]

/-- C6 counterexample: a `receive` whose prepare phase collects zero
confirmations (all three acceptors conflict at ballot 5) produces no result
at all: the wait loop at casPaxos.py lines 108-116 sleeps forever because
its body never changes `confirmations` (modelled as `none`).  No typed
error (`PrepareQuorumFailed`, `AcceptQuorumFailed`, `RoundTimedOut`) exists
anywhere in the source. -/
theorem receive_quorum_failure_never_returns :
    receive { acceptors := promisedTenAcceptors, state := 0 } (fun x => x) 5 =
      none := by
  decide

/-- C6 (amended): `receive` returns (with the new state) precisely when both
wait loops exit, i.e. at least `F + 1` non-conflicting replies were
collected in the prepare phase and again in the accept phase; otherwise the
source loops unboundedly in `time.sleep(5)` with no error ever surfaced. -/
theorem receive_terminates_iff_quorums (p : Proposer) (f : Int → Int) (b : Nat) :
    (receive p f b).isSome ↔
      (((prepareConfirmations p.acceptors b).length : Int) ≥ p.F + 1 ∧
        ((acceptConfirmations (afterPrepare p b).acceptors b
            (f (afterPrepare p b).state)).length : Int) ≥ (afterPrepare p b).F + 1) := by
  unfold receive send_prepare
  by_cases h : ((prepareConfirmations p.acceptors b).length : Int) ≥ p.F + 1
  · rw [if_pos h]
    simpa [h] using send_accept_isSome (afterPrepare p b) f b
  · rw [if_neg h]
    simp [h]

/-- C10: `Proposer.__init__` raises `ValueError` (carrying no proposer
state) when the `acceptors` argument is not a list, and for any list it
succeeds, storing the list and initializing `state` to the bottom value 0. -/
theorem proposer_init_characterization (xs : List Acceptor) :
    Proposer.init AcceptorsArg.nonList = Except.error valueErrorMsg ∧
      Proposer.init (AcceptorsArg.list xs) =
        Except.ok { acceptors := xs, state := 0 } :=
  ⟨rfl, rfl⟩
